import Mathlib

/-!
Verification of the `devenv` environment-provisioning script (`src/devenv.py`).

The script is a stateless orchestrator over three external gateways:
a local git repository (GitPython), the AWS Amplify deployment API, and
the AWS S3 storage API (boto3).  We embed it shallowly: every gateway
call the script issues is recorded, in order, as an `Event`; gateway
failures the script can observe (botocore `ClientError` on selected
calls) are supplied by oracles in an `Aws` record; Python exceptions
that escape a function are returned as `Option Err`.

Conventions of the embedding, stated once here:
* `repo.git.checkout name` is modelled as recording the call and moving
  the checked-out head to `name`; failure modes internal to the git
  backend (e.g. checking out a ref that does not exist anywhere) belong
  to the external gateway and are not decided by this model.
* `assert Path.exists(path)` is modelled as the path-existence
  precondition the assertion message documents ("Path ... does not
  exist").  In the source the function `Path.exists` is applied to a
  plain string; we model the evident intent: a check that fails the
  assertion exactly when the configured path is missing.
* argparse option values that default to Python `None` are modelled as
  the empty string, which the script treats identically (both are
  falsy, and only truthiness tests and pass-through uses occur).
-/

set_option autoImplicit false

namespace Devenv

/-- A gateway call issued by the script, recorded in program order. -/
inductive Event where
  /-- `repo.git.checkout(name)` on the repository of `product`. -/
  | gitCheckout (product : String) (name : String)
  /-- `repo.create_head(name)` on the repository of `product`. -/
  | gitCreateHead (product : String) (name : String)
  /-- `repo.remote(name=remote).push(branch)` on the repository of `product`. -/
  | gitPush (product : String) (remote : String) (branch : String)
  /-- `s3_client.create_bucket(ACL=acl, Bucket=name, CreateBucketConfiguration={LocationConstraint: region})`. -/
  | s3CreateBucket (name : String) (region : String) (acl : String)
  /-- `s3_client.put_bucket_encryption(Bucket=name, ...SSEAlgorithm: alg)`. -/
  | s3PutBucketEncryption (name : String) (alg : String)
  /-- `s3_client.put_public_access_block(Bucket=name, ...)` with the four flags. -/
  | s3PutPublicAccessBlock (name : String)
      (blockPublicAcls ignorePublicAcls blockPublicPolicy restrictPublicBuckets : Bool)
  /-- `client.create_branch(...)` on the Amplify API. -/
  | amplifyCreateBranch (appId : String) (branchName : String) (stage : String)
      (enableNotif enableAutoBuild enableBasicAuth : Bool)
      (tagName : String) (displayName : String)
      (environmentVariables : Option (List (String × String)))
  /-- `client.start_job(...)` on the Amplify API. -/
  | amplifyStartJob (appId : String) (branchName : String) (jobType : String) (jobReason : String)
  /-- `client.delete_branch(...)` on the Amplify API. -/
  | amplifyDeleteBranch (appId : String) (branchName : String)
  deriving DecidableEq, Repr

/-- A Python exception escaping a function of the script. -/
inductive Err where
  /-- A failed `assert` statement (its message). -/
  | assertionError (msg : String)
  /-- A missing configparser section: `config[key]` with no such section. -/
  | keyError (key : String)
  /-- `raise ValueError('Repo is dirty, ...')` (its message). -/
  | dirtyRepo (msg : String)
  /-- `raise ValueError(f'Branch ... does not exist')` on a demanded branch. -/
  | branchNotFound (branch : String)
  /-- A botocore `ClientError` escaping uncaught (the call it came from). -/
  | clientError (call : String)
  /-- `raise NotImplementedError(msg)`. -/
  | notImplementedError (msg : String)
  deriving DecidableEq, Repr

/-- One `[section]` of `config.ini`: the per-product configuration. -/
structure ProdConfig where
  /-- `config[product]['app_id']`. -/
  app_id : String
  /-- `config[product]['path']`. -/
  path : String
  /-- Whether the filesystem path exists (the `assert Path.exists(path)` precondition). -/
  pathExists : Bool
  /-- `config[product]['default-branch']` when the key is present. -/
  defaultBranch : Option String
  deriving DecidableEq, Repr

/-- The loaded configuration: section lookup; `none` models the `KeyError`
raised by `config[section]` for a missing section. -/
abbrev Config := String → Option ProdConfig

/-- The state of a local git repository as the script observes it. -/
structure RepoState where
  /-- Names of the local branches (`[h.name for h in repo.branches]`). -/
  branches : List String
  /-- The currently checked-out branch. -/
  head : String
  /-- `repo.is_dirty()`. -/
  dirty : Bool
  /-- `repo.bare`. -/
  bare : Bool
  deriving DecidableEq, Repr

/-- Failure oracles for the AWS gateway calls whose `ClientError` the
script either catches or lets escape.  A `true` answer means the call
raises `ClientError`. -/
structure Aws where
  /-- Whether `create_bucket` on the given bucket name raises
  (e.g. the bucket already exists). -/
  createBucketFails : String → Bool
  /-- Whether `create_branch(appId, branchName, ...)` raises. -/
  createBranchFails : String → String → Bool
  /-- Whether `start_job(appId, branchName, ...)` raises. -/
  startJobFails : String → String → Bool
  /-- Whether `delete_branch(appId, branchName)` raises. -/
  deleteBranchFails : String → String → Bool

/-- Message of the dirty-tree guard before switching to the default branch. -/
def dirtyDefaultMsg : String :=
  "Repo is dirty, I am not sure if it is safe to switch to default branch. Aborting"

/-- Message of the dirty-tree guard before checking out an existing branch. -/
def dirtyBranchMsg : String :=
  "Repo is dirty, I am not sure if it is safe to switch to branch. Aborting"

/-- Python `str.lower()`, modelled as character-wise lowering (the
identifiers the script lowers are ASCII).  Defined structurally so that
concrete instances reduce by computation. -/
def strLower (s : String) : String := ⟨s.data.map Char.toLower⟩

/-- `setup_deployment_bucket(stage)` (src/devenv.py lines 94-125): derive
the bucket name, attempt creation in us-west-2; on `ClientError` return
`False` with no further calls; on success apply default AES256
encryption, then the four-flag public-access block, and return `True`.
Result: (returned boolean, calls issued in order). -/
def setup_deployment_bucket (aws : Aws) (stage : String) : Bool × List Event :=
  let bucket_name := "serverless-deployment-state-" ++ (strLower stage)
  if aws.createBucketFails bucket_name then
    (false, [.s3CreateBucket bucket_name "us-west-2" "private"])
  else
    (true, [.s3CreateBucket bucket_name "us-west-2" "private",
            .s3PutBucketEncryption bucket_name "AES256",
            .s3PutPublicAccessBlock bucket_name true true true true])

/-- Outcome of `setup_git`: the final repository state, the git calls
issued in order, and the exception that escaped, if any. -/
structure GitResult where
  repo : RepoState
  events : List Event
  err : Option Err
  deriving DecidableEq, Repr

/-- The branch-handling tail of `setup_git` (src/devenv.py lines 165-178),
run after the optional default-branch switch produced state `repo1` and
calls `evs1`.  Mirrors the source exactly; in particular the final
`repo.git.checkout(branch_name)` at line 178 is reached from the
`no_create and ignore_non_existing` arm as well (the arm only prints and
falls through). -/
def setup_git_core (product branch_name : String) (no_create ignore_non_existing : Bool)
    (repo1 : RepoState) (evs1 : List Event) : GitResult :=
  if branch_name ∈ repo1.branches then
    if repo1.dirty then
      ⟨repo1, evs1, some (.dirtyRepo dirtyBranchMsg)⟩
    else
      ⟨{ repo1 with head := branch_name }, evs1 ++ [.gitCheckout product branch_name], none⟩
  else
    if no_create then
      if ignore_non_existing then
        ⟨{ repo1 with head := branch_name }, evs1 ++ [.gitCheckout product branch_name], none⟩
      else
        ⟨repo1, evs1, some (.branchNotFound branch_name)⟩
    else
      ⟨{ repo1 with branches := repo1.branches ++ [branch_name], head := branch_name },
       evs1 ++ [.gitCreateHead product branch_name,
                .gitPush product "origin" branch_name,
                .gitCheckout product branch_name], none⟩

/-- `setup_git(config, product, branch_name, no_create, ignore_non_existing,
reset_only)` (src/devenv.py lines 145-178): the local branch reconciler,
acting on repository state `repo`. -/
def setup_git (config : Config) (product branch_name : String)
    (no_create ignore_non_existing reset_only : Bool) (repo : RepoState) : GitResult :=
  match config product with
  | none => ⟨repo, [], some (.keyError product)⟩
  | some pc =>
    if pc.pathExists then
      if product = "" then ⟨repo, [], some (.assertionError "Product is not set")⟩
      else if branch_name = "" then ⟨repo, [], some (.assertionError "Branch name is not set")⟩
      else if repo.bare then ⟨repo, [], some (.assertionError "assert not repo.bare")⟩
      else
        match pc.defaultBranch with
        | some d =>
          if !no_create || reset_only then
            if repo.dirty then
              ⟨repo, [], some (.dirtyRepo dirtyDefaultMsg)⟩
            else if reset_only then
              ⟨{ repo with head := d }, [.gitCheckout product d], none⟩
            else
              setup_git_core product branch_name no_create ignore_non_existing
                { repo with head := d } [.gitCheckout product d]
          else if reset_only then
            ⟨repo, [], none⟩
          else
            setup_git_core product branch_name no_create ignore_non_existing repo []
        | none =>
          if reset_only then
            ⟨repo, [], none⟩
          else
            setup_git_core product branch_name no_create ignore_non_existing repo []
    else
      ⟨repo, [], some (.assertionError ("Path " ++ pc.path ++ " does not exist"))⟩

/-- Whether an event is a `create_head` call. -/
def Event.isCreateHead : Event → Bool
  | .gitCreateHead _ _ => true
  | _ => false

/-- Whether an event is a push to the given remote. -/
def Event.isPushTo (remote : String) : Event → Bool
  | .gitPush _ r _ => r == remote
  | _ => false

/-- Whether an event is any push. -/
def Event.isPush : Event → Bool
  | .gitPush _ _ _ => true
  | _ => false

/-- Whether an event is a `start_job` call. -/
def Event.isStartJob : Event → Bool
  | .amplifyStartJob _ _ _ _ => true
  | _ => false

/-- Whether an event is one of the two bucket-configuration calls. -/
def Event.isBucketConfig : Event → Bool
  | .s3PutBucketEncryption _ _ => true
  | .s3PutPublicAccessBlock _ _ _ _ _ => true
  | _ => false

/-- Whether an event is a call to a remote service (deployment or storage),
as opposed to a local git operation. -/
def Event.isRemote : Event → Bool
  | .gitCheckout _ _ => false
  | .gitCreateHead _ _ => false
  | .gitPush _ _ _ => false
  | _ => true

/-- The Amplify application id an event addresses, if it is an Amplify call. -/
def Event.amplifyAppId : Event → Option String
  | .amplifyCreateBranch a _ _ _ _ _ _ _ _ => some a
  | .amplifyStartJob a _ _ _ => some a
  | .amplifyDeleteBranch a _ => some a
  | _ => none

/-- `setup_claire_amplify(config, branch, env_name, bretha_graphql_endpoint,
shared_data_with)` (src/devenv.py lines 10-55): asserts, bucket setup,
`create_branch` in a try/except that returns on `ClientError`, then an
unguarded `start_job`.  Result: (calls issued in order, escaped exception). -/
def setup_claire_amplify (aws : Aws) (config : Config)
    (branch env_name bretha_graphql_endpoint shared_data_with : String) :
    List Event × Option Err :=
  if branch = "" then ([], some (.assertionError "Branch is not set"))
  else if env_name = "" then ([], some (.assertionError "Environment name is not set"))
  else if bretha_graphql_endpoint = "" then
    ([], some (.assertionError "Bretha graphql endpoint is not set"))
  else if shared_data_with = "" then ([], some (.assertionError "Shared data with is not set"))
  else
    match config "claire" with
    | none => ([], some (.keyError "claire"))
    | some pc =>
      let bres := setup_deployment_bucket aws (strLower env_name)
      let createEv := Event.amplifyCreateBranch pc.app_id branch "DEVELOPMENT"
        false true false ("claire-" ++ env_name) (strLower env_name)
        (some [("BRETHA_GRAPHQL_ENDPOINT", bretha_graphql_endpoint),
               ("SHARED_DATA_WITH", shared_data_with)])
      if aws.createBranchFails pc.app_id branch then
        (bres.2 ++ [createEv], none)
      else if aws.startJobFails pc.app_id branch then
        (bres.2 ++ [createEv,
          .amplifyStartJob pc.app_id branch "RELEASE" "Initial environment setup"],
         some (.clientError "start_job"))
      else
        (bres.2 ++ [createEv,
          .amplifyStartJob pc.app_id branch "RELEASE" "Initial environment setup"], none)

/-- `setup_wellsky_apps_amplify(config, branch, env_name)` (src/devenv.py
lines 58-91): like the claire variant but with no deployment bucket, no
environment variables and no endpoint/share-target parameters. -/
def setup_wellsky_apps_amplify (aws : Aws) (config : Config)
    (branch env_name : String) : List Event × Option Err :=
  if branch = "" then ([], some (.assertionError "Branch is not set"))
  else if env_name = "" then ([], some (.assertionError "Environment name is not set"))
  else
    match config "wellsky-apps" with
    | none => ([], some (.keyError "wellsky-apps"))
    | some pc =>
      let createEv := Event.amplifyCreateBranch pc.app_id branch "DEVELOPMENT"
        false true false ("wellsky-apps-" ++ env_name) (strLower env_name) none
      if aws.createBranchFails pc.app_id branch then
        ([createEv], none)
      else if aws.startJobFails pc.app_id branch then
        ([createEv, .amplifyStartJob pc.app_id branch "RELEASE" "Initial environment setup"],
         some (.clientError "start_job"))
      else
        ([createEv, .amplifyStartJob pc.app_id branch "RELEASE" "Initial environment setup"],
         none)

/-- `remove_amplify(config, product, env_name)` (src/devenv.py lines
128-142): asserts, then `delete_branch` in a try/except whose
`ClientError` arm prints and returns. -/
def remove_amplify (aws : Aws) (config : Config) (product env_name : String) :
    List Event × Option Err :=
  if product = "" then ([], some (.assertionError "Product is not set"))
  else if env_name = "" then ([], some (.assertionError "Environment name is not set"))
  else
    match config product with
    | none => ([], some (.keyError product))
    | some pc =>
      if aws.deleteBranchFails pc.app_id env_name then
        ([.amplifyDeleteBranch pc.app_id env_name], none)
      else
        ([.amplifyDeleteBranch pc.app_id env_name], none)

/-- `copy_data(dto, dfrom)` (src/devenv.py lines 181-182): unconditionally
raises `NotImplementedError`. -/
def copy_data (_dto _dfrom : String) : List Event × Option Err :=
  ([], some (.notImplementedError "We are not there yet"))

/-- The parsed command line (src/devenv.py lines 191-208).  Optional string
arguments that argparse defaults to `None` are the empty string here;
`jira` records whether the `jira` subcommand was given (the `'ticket' in
args` test), `ticket` and `new` its arguments. -/
structure Args where
  branch : String
  env : String
  remote_only : Bool
  local_only : Bool
  bretha_graphql_endpoint : String
  remove : Bool
  copy_data_from : String
  share_data_with : String
  claire : Bool
  wellsky_apps : Bool
  jira : Bool
  ticket : String
  new : Bool
  deriving DecidableEq, Repr

/-- Outcome of running the git phase over the (up to) two selected
products: both repository states, the calls issued, and the exception
that escaped, if any. -/
structure GitPhaseResult where
  claireRepo : RepoState
  wellskyRepo : RepoState
  events : List Event
  err : Option Err
  deriving DecidableEq, Repr

/-- The per-product `setup_git` calls of `__main__` (claire first, then
wellsky-apps), with an exception from the first aborting the second:
nothing in `__main__` catches `setup_git` errors. -/
def run_products_git (config : Config) (branch : String)
    (no_create ignore_non_existing : Bool) (doClaire doWellsky : Bool)
    (cr wr : RepoState) : GitPhaseResult :=
  let r1 := if doClaire then setup_git config "claire" branch no_create ignore_non_existing false cr
            else ⟨cr, [], none⟩
  match r1.err with
  | some e => ⟨r1.repo, wr, r1.events, some e⟩
  | none =>
    let r2 := if doWellsky then
                setup_git config "wellsky-apps" branch no_create ignore_non_existing false wr
              else ⟨wr, [], none⟩
    ⟨r1.repo, r2.repo, r1.events ++ r2.events, r2.err⟩

/-- The remote phase of `__main__` (src/devenv.py lines 232-250): skipped
when `--local-only`; on `--remove` the per-product `remove_amplify`
calls, otherwise the per-product environment setups followed by the
`copy_data` stub when `--copy-data-from` was given.  An exception
escaping one product's call aborts the rest (nothing here catches). -/
def amplify_phase (aws : Aws) (config : Config) (a : Args) : List Event × Option Err :=
  if a.local_only then ([], none)
  else if a.remove then
    let r1 := if a.claire then remove_amplify aws config "claire" a.env else ([], none)
    match r1.2 with
    | some e => (r1.1, some e)
    | none =>
      let r2 := if a.wellsky_apps then remove_amplify aws config "wellsky-apps" a.env
                else ([], none)
      (r1.1 ++ r2.1, r2.2)
  else
    let r1 := if a.claire then
                setup_claire_amplify aws config a.branch a.env
                  a.bretha_graphql_endpoint a.share_data_with
              else ([], none)
    match r1.2 with
    | some e => (r1.1, some e)
    | none =>
      let r2 := if a.wellsky_apps then
                  setup_wellsky_apps_amplify aws config a.branch a.env
                else ([], none)
      match r2.2 with
      | some e => (r1.1 ++ r2.1, some e)
      | none =>
        if a.copy_data_from ≠ "" then
          let r3 := copy_data a.env a.copy_data_from
          (r1.1 ++ r2.1 ++ r3.1, r3.2)
        else
          (r1.1 ++ r2.1, none)

/-- Outcome of the whole `__main__` run: final repository states, all
calls issued, the exception that escaped (crashing the process), and
the argument of an explicit `exit(...)` call when one was reached. -/
structure MainResult where
  claireRepo : RepoState
  wellskyRepo : RepoState
  events : List Event
  err : Option Err
  exitCode : Option Nat
  deriving DecidableEq, Repr

/-- The general (non-shortcut) tail of `__main__` (src/devenv.py lines
226-250): the git phase when `--remote-only` is absent and a branch was
given, then the remote phase. -/
def main_general (config : Config) (aws : Aws) (a : Args) (cr wr : RepoState) : MainResult :=
  let g := if ¬ a.remote_only ∧ a.branch ≠ "" then
             run_products_git config a.branch a.local_only false a.claire a.wellsky_apps cr wr
           else ⟨cr, wr, [], none⟩
  match g.err with
  | some e => ⟨g.claireRepo, g.wellskyRepo, g.events, some e, none⟩
  | none =>
    let am := amplify_phase aws config a
    ⟨g.claireRepo, g.wellskyRepo, g.events ++ am.1, am.2, none⟩

/-- `__main__` after argument parsing (src/devenv.py lines 210-250): the
jira ticket shortcut (attach mode reconciles with `no_create=True,
ignore_non_existing=True` and exits 0; `--new` rewrites branch, env and
share-target and falls through), otherwise the general logic. -/
def main_run (config : Config) (aws : Aws) (a : Args) (cr wr : RepoState) : MainResult :=
  if a.jira ∧ a.ticket ≠ "" then
    let branch := "issue/" ++ a.ticket
    if a.new then
      main_general config aws
        { a with branch := branch, env := a.ticket, share_data_with := "qa",
                 local_only := false } cr wr
    else
      let g := run_products_git config branch true true a.claire a.wellsky_apps cr wr
      ⟨g.claireRepo, g.wellskyRepo, g.events, g.err,
       if g.err.isSome then none else some 0⟩
  else
    main_general config aws a cr wr

/-- A demo configuration with the two products of `config.ini`:
`claire` (with a configured default branch) and `wellsky-apps` (without). -/
def cfgDemo : Config := fun s =>
  if s = "claire" then
    some { app_id := "capp", path := "/repos/claire", pathExists := true,
           defaultBranch := some "main" }
  else if s = "wellsky-apps" then
    some { app_id := "wapp", path := "/repos/wellsky-apps", pathExists := true,
           defaultBranch := none }
  else none

/-- A clean non-bare repository on `main`. -/
def repoClean : RepoState := { branches := ["main"], head := "main", dirty := false, bare := false }

/-- A dirty non-bare repository on `main`. -/
def repoDirty : RepoState := { branches := ["main"], head := "main", dirty := true, bare := false }

/-- An AWS oracle on which every call succeeds. -/
def awsOk : Aws :=
  { createBucketFails := fun _ => false
    createBranchFails := fun _ _ => false
    startJobFails := fun _ _ => false
    deleteBranchFails := fun _ _ => false }

/-- An AWS oracle on which every `create_bucket` raises (bucket exists). -/
def awsBucketExists : Aws :=
  { createBucketFails := fun _ => true
    createBranchFails := fun _ _ => false
    startJobFails := fun _ _ => false
    deleteBranchFails := fun _ _ => false }

/-- An AWS oracle on which `create_branch` raises for the claire
application id `capp` and every other call succeeds. -/
def awsClaireCreateBranchFails : Aws :=
  { createBucketFails := fun _ => false
    createBranchFails := fun appId _ => appId == "capp"
    startJobFails := fun _ _ => false
    deleteBranchFails := fun _ _ => false }

/-- An AWS oracle on which `start_job` raises for the claire application
id `capp` and every other call succeeds. -/
def awsClaireStartJobFails : Aws :=
  { createBucketFails := fun _ => false
    createBranchFails := fun _ _ => false
    startJobFails := fun appId _ => appId == "capp"
    deleteBranchFails := fun _ _ => false }

/-- An AWS oracle on which every `create_branch` raises. -/
def awsCreateBranchAlwaysFails : Aws :=
  { createBucketFails := fun _ => false
    createBranchFails := fun _ _ => true
    startJobFails := fun _ _ => false
    deleteBranchFails := fun _ _ => false }

/-- A batched invocation selecting both products with `--remote-only`:
`--branch feature --env demo --share-data-with qa --claire
--wellsky-apps --remote-only`. -/
def argsBatch : Args :=
  { branch := "feature", env := "demo", remote_only := true, local_only := false,
    bretha_graphql_endpoint := "http://graphql.claire-qa.clearcare.ninja",
    remove := false, copy_data_from := "", share_data_with := "qa",
    claire := true, wellsky_apps := true, jira := false, ticket := "", new := false }

/-- The invocation `jira CW-2134 --claire` (attach mode, no `--new`). -/
def argsJira : Args :=
  { branch := "", env := "", remote_only := false, local_only := false,
    bretha_graphql_endpoint := "http://graphql.claire-qa.clearcare.ninja",
    remove := false, copy_data_from := "", share_data_with := "",
    claire := true, wellsky_apps := false, jira := true, ticket := "CW-2134", new := false }

/-- Whether an escaped exception is a failed precondition `assert`. -/
def isAssertion : Option Err → Bool
  | some (.assertionError _) => true
  | _ => false

/-- C2: for every envName, `setup_deployment_bucket` derives the bucket
name `serverless-deployment-state-<lower(envName)>` in region us-west-2;
if the creation call raises it returns false and performs no
configuration calls; if creation succeeds it applies AES256 default
encryption, then a public-access block with all four flags true, in that
order, and returns true. -/
theorem c2_deployment_bucket (aws : Aws) (stage : String) :
    (setup_deployment_bucket aws stage).2.head? =
      some (.s3CreateBucket ("serverless-deployment-state-" ++ (strLower stage)) "us-west-2" "private")
    ∧ (aws.createBucketFails ("serverless-deployment-state-" ++ (strLower stage)) = true →
        (setup_deployment_bucket aws stage).1 = false
        ∧ ∀ e ∈ (setup_deployment_bucket aws stage).2, e.isBucketConfig = false)
    ∧ (aws.createBucketFails ("serverless-deployment-state-" ++ (strLower stage)) = false →
        (setup_deployment_bucket aws stage).1 = true
        ∧ (setup_deployment_bucket aws stage).2 =
          [.s3CreateBucket ("serverless-deployment-state-" ++ (strLower stage)) "us-west-2" "private",
           .s3PutBucketEncryption ("serverless-deployment-state-" ++ (strLower stage)) "AES256",
           .s3PutPublicAccessBlock ("serverless-deployment-state-" ++ (strLower stage))
             true true true true]) := by
  unfold setup_deployment_bucket
  cases h : aws.createBucketFails ("serverless-deployment-state-" ++ (strLower stage)) with
  | false => simp [h]
  | true => simp [h, Event.isBucketConfig]

/-- C2 witness: both branches of `c2_deployment_bucket` at envName "QA". -/
theorem c2_deployment_bucket_witness :
    ((setup_deployment_bucket awsBucketExists "QA").1 = false
      ∧ ∀ e ∈ (setup_deployment_bucket awsBucketExists "QA").2, e.isBucketConfig = false)
    ∧ ((setup_deployment_bucket awsOk "QA").1 = true
      ∧ (setup_deployment_bucket awsOk "QA").2 =
        [.s3CreateBucket ("serverless-deployment-state-" ++ (strLower "QA")) "us-west-2" "private",
         .s3PutBucketEncryption ("serverless-deployment-state-" ++ (strLower "QA")) "AES256",
         .s3PutPublicAccessBlock ("serverless-deployment-state-" ++ (strLower "QA"))
           true true true true]) :=
  ⟨(c2_deployment_bucket awsBucketExists "QA").2.1 rfl,
   (c2_deployment_bucket awsOk "QA").2.2 rfl⟩

/-- C5: for every `setup_git` call with `reset_only=true` on a product with
a configured default branch (and whatever the `no_create` and
`ignore_non_existing` flags are): if the working tree is dirty the call
fails with the dirty-repository error and no checkout occurs; if clean,
the repository ends on the default branch and `branch_name` is never
checked out. -/
theorem c5_reset_only (config : Config) (product branch_name d : String) (pc : ProdConfig)
    (nc ign : Bool) (repo : RepoState)
    (hcfg : config product = some pc) (hdef : pc.defaultBranch = some d)
    (hpath : pc.pathExists = true) (hprod : product ≠ "") (hbr : branch_name ≠ "")
    (hbare : repo.bare = false) :
    (repo.dirty = true →
      (setup_git config product branch_name nc ign true repo).err =
        some (.dirtyRepo dirtyDefaultMsg)
      ∧ (setup_git config product branch_name nc ign true repo).events = []
      ∧ (setup_git config product branch_name nc ign true repo).repo = repo)
    ∧ (repo.dirty = false →
      (setup_git config product branch_name nc ign true repo).err = none
      ∧ (setup_git config product branch_name nc ign true repo).repo = { repo with head := d }
      ∧ (setup_git config product branch_name nc ign true repo).events =
        [.gitCheckout product d]
      ∧ (branch_name ≠ d →
          Event.gitCheckout product branch_name ∉
            (setup_git config product branch_name nc ign true repo).events)) := by
  constructor
  · intro hd
    simp [setup_git, hcfg, hdef, hpath, hprod, hbr, hbare, hd]
  · intro hd
    simp [setup_git, hcfg, hdef, hpath, hprod, hbr, hbare, hd]

/-- C5 witness: both branches of `c5_reset_only` for the claire product. -/
theorem c5_reset_only_witness :
    ((setup_git cfgDemo "claire" "feature" false false true repoDirty).err =
        some (.dirtyRepo dirtyDefaultMsg)
      ∧ (setup_git cfgDemo "claire" "feature" false false true repoDirty).events = []
      ∧ (setup_git cfgDemo "claire" "feature" false false true repoDirty).repo = repoDirty)
    ∧ ((setup_git cfgDemo "claire" "feature" false false true repoClean).err = none
      ∧ (setup_git cfgDemo "claire" "feature" false false true repoClean).repo =
          { repoClean with head := "main" }
      ∧ (setup_git cfgDemo "claire" "feature" false false true repoClean).events =
          [.gitCheckout "claire" "main"]
      ∧ ("feature" ≠ "main" →
          Event.gitCheckout "claire" "feature" ∉
            (setup_git cfgDemo "claire" "feature" false false true repoClean).events)) :=
  ⟨(c5_reset_only cfgDemo "claire" "feature" "main"
      { app_id := "capp", path := "/repos/claire", pathExists := true,
        defaultBranch := some "main" }
      false false repoDirty rfl rfl rfl (by decide) (by decide) rfl).1 rfl,
   (c5_reset_only cfgDemo "claire" "feature" "main"
      { app_id := "capp", path := "/repos/claire", pathExists := true,
        defaultBranch := some "main" }
      false false repoClean rfl rfl rfl (by decide) (by decide) rfl).2 rfl⟩

/-- C6: for every `setup_git` call with `no_create=true` and
`ignore_non_existing=false` (and `reset_only` at its default `false`)
where `branch_name` is not in the repository's branch set, the call
fails with the branch-not-found error and no mutation of the repository
occurs: no call is issued and the state is unchanged. -/
theorem c6_no_create_missing_branch (config : Config) (product branch_name : String)
    (pc : ProdConfig) (repo : RepoState)
    (hcfg : config product = some pc) (hpath : pc.pathExists = true)
    (hprod : product ≠ "") (hbr : branch_name ≠ "") (hbare : repo.bare = false)
    (hmem : branch_name ∉ repo.branches) :
    (setup_git config product branch_name true false false repo).err =
      some (.branchNotFound branch_name)
    ∧ (setup_git config product branch_name true false false repo).events = []
    ∧ (setup_git config product branch_name true false false repo).repo = repo := by
  cases hdef : pc.defaultBranch with
  | none => simp [setup_git, setup_git_core, hcfg, hdef, hpath, hprod, hbr, hbare, hmem]
  | some d => simp [setup_git, setup_git_core, hcfg, hdef, hpath, hprod, hbr, hbare, hmem]

/-- C6 witness: `c6_no_create_missing_branch` for the claire product and a
missing branch "feature". -/
theorem c6_no_create_missing_branch_witness :
    (setup_git cfgDemo "claire" "feature" true false false repoClean).err =
      some (.branchNotFound "feature")
    ∧ (setup_git cfgDemo "claire" "feature" true false false repoClean).events = []
    ∧ (setup_git cfgDemo "claire" "feature" true false false repoClean).repo = repoClean :=
  c6_no_create_missing_branch cfgDemo "claire" "feature"
    { app_id := "capp", path := "/repos/claire", pathExists := true,
      defaultBranch := some "main" }
    repoClean rfl rfl (by decide) (by decide) rfl (by decide)

/-- C10: for every `setup_git` call with `no_create=false` where
`branch_name` is absent, on a product with no configured default branch
(so the default-branch switch of the source, whose dirty guard is the
only other dirty check, does not run), a dirty working tree does not
cause failure: branch creation, the push to "origin" and the final
checkout of `branch_name` are all performed even though the tree is
dirty. -/
theorem c10_create_ignores_dirty (config : Config) (product branch_name : String)
    (pc : ProdConfig) (repo : RepoState)
    (hcfg : config product = some pc) (hdef : pc.defaultBranch = none)
    (hpath : pc.pathExists = true) (hprod : product ≠ "") (hbr : branch_name ≠ "")
    (hbare : repo.bare = false) (hmem : branch_name ∉ repo.branches)
    (_hdirty : repo.dirty = true) :
    (setup_git config product branch_name false false false repo).err = none
    ∧ (setup_git config product branch_name false false false repo).events =
      [.gitCreateHead product branch_name, .gitPush product "origin" branch_name,
       .gitCheckout product branch_name]
    ∧ (setup_git config product branch_name false false false repo).repo =
      { repo with branches := repo.branches ++ [branch_name], head := branch_name } := by
  simp [setup_git, setup_git_core, hcfg, hdef, hpath, hprod, hbr, hbare, hmem]

/-- C10 witness: `c10_create_ignores_dirty` for the wellsky-apps product
(no default branch configured) on a dirty repository. -/
theorem c10_create_ignores_dirty_witness :
    (setup_git cfgDemo "wellsky-apps" "feature" false false false repoDirty).err = none
    ∧ (setup_git cfgDemo "wellsky-apps" "feature" false false false repoDirty).events =
      [.gitCreateHead "wellsky-apps" "feature", .gitPush "wellsky-apps" "origin" "feature",
       .gitCheckout "wellsky-apps" "feature"]
    ∧ (setup_git cfgDemo "wellsky-apps" "feature" false false false repoDirty).repo =
      { repoDirty with branches := repoDirty.branches ++ ["feature"], head := "feature" } :=
  c10_create_ignores_dirty cfgDemo "wellsky-apps" "feature"
    { app_id := "wapp", path := "/repos/wellsky-apps", pathExists := true,
      defaultBranch := none }
    repoDirty rfl rfl rfl (by decide) (by decide) rfl (by decide) rfl

/-- C1 counterexample: a `setup_git` call with `no_create=true` and
`ignore_non_existing=true` on the missing branch "feature" does issue a
checkout (the `no_create and ignore_non_existing` arm only prints and
falls through to line 178) and does change the repository: the claim
that no checkout is performed and the repository is left unchanged is
false at this input. -/
theorem c1_counterexample :
    (setup_git cfgDemo "claire" "feature" true true false repoClean).events =
      [.gitCheckout "claire" "feature"]
    ∧ (setup_git cfgDemo "claire" "feature" true true false repoClean).repo ≠ repoClean := by
  decide

/-- C1 amended: for every `setup_git` call with `no_create=true` and
`ignore_non_existing=true` where `branch_name` is not in the branch set,
the call returns success, creates no branch and performs no push, but
the final checkout of `branch_name` is still issued, leaving the
repository checked out on `branch_name` (its branch set unchanged). -/
theorem c1_amended_ignore_still_checks_out (config : Config) (product branch_name : String)
    (pc : ProdConfig) (repo : RepoState)
    (hcfg : config product = some pc) (hpath : pc.pathExists = true)
    (hprod : product ≠ "") (hbr : branch_name ≠ "") (hbare : repo.bare = false)
    (hmem : branch_name ∉ repo.branches) :
    (setup_git config product branch_name true true false repo).err = none
    ∧ (∀ e ∈ (setup_git config product branch_name true true false repo).events,
        e.isCreateHead = false ∧ e.isPush = false)
    ∧ (setup_git config product branch_name true true false repo).events =
      [.gitCheckout product branch_name]
    ∧ (setup_git config product branch_name true true false repo).repo =
      { repo with head := branch_name } := by
  cases hdef : pc.defaultBranch with
  | none =>
    simp [setup_git, setup_git_core, hcfg, hdef, hpath, hprod, hbr, hbare, hmem,
      Event.isCreateHead, Event.isPush]
  | some d =>
    simp [setup_git, setup_git_core, hcfg, hdef, hpath, hprod, hbr, hbare, hmem,
      Event.isCreateHead, Event.isPush]

/-- C1 witness: `c1_amended_ignore_still_checks_out` for the claire
product on a clean repository and the missing branch "feature". -/
theorem c1_amended_witness :
    (setup_git cfgDemo "claire" "feature" true true false repoClean).err = none
    ∧ (∀ e ∈ (setup_git cfgDemo "claire" "feature" true true false repoClean).events,
        e.isCreateHead = false ∧ e.isPush = false)
    ∧ (setup_git cfgDemo "claire" "feature" true true false repoClean).events =
      [.gitCheckout "claire" "feature"]
    ∧ (setup_git cfgDemo "claire" "feature" true true false repoClean).repo =
      { repoClean with head := "feature" } :=
  c1_amended_ignore_still_checks_out cfgDemo "claire" "feature"
    { app_id := "capp", path := "/repos/claire", pathExists := true,
      defaultBranch := some "main" }
    repoClean rfl rfl (by decide) (by decide) rfl (by decide)

/-- C7 counterexample: a `setup_git` call with `no_create=false` on the
missing branch "feature", for a product with a configured default branch
and a dirty working tree, fails at the default-branch dirty guard: no
branch is created and no push occurs, so "exactly one local branch is
created and exactly one push occurs" is false at this input. -/
theorem c7_counterexample :
    (setup_git cfgDemo "claire" "feature" false false false repoDirty).err =
      some (.dirtyRepo dirtyDefaultMsg)
    ∧ (setup_git cfgDemo "claire" "feature" false false false repoDirty).events = []
    ∧ ((setup_git cfgDemo "claire" "feature" false false false repoDirty).events.filter
        Event.isCreateHead).length = 0 := by
  decide

/-- C7 amended: for every `setup_git` call with `no_create=false` where
`branch_name` is absent, provided the product has no configured default
branch or the working tree is clean, exactly one local branch is
created, exactly one push to the remote "origin" occurs, and the
repository is then checked out to `branch_name`; if a default branch is
configured and the tree is dirty, the call instead fails with the
dirty-repository error before creating anything. -/
theorem c7_amended_create_branch (config : Config) (product branch_name : String)
    (pc : ProdConfig) (repo : RepoState)
    (hcfg : config product = some pc) (hpath : pc.pathExists = true)
    (hprod : product ≠ "") (hbr : branch_name ≠ "") (hbare : repo.bare = false)
    (hmem : branch_name ∉ repo.branches) :
    (pc.defaultBranch = none ∨ repo.dirty = false →
      (setup_git config product branch_name false false false repo).err = none
      ∧ ((setup_git config product branch_name false false false repo).events.filter
          Event.isCreateHead).length = 1
      ∧ ((setup_git config product branch_name false false false repo).events.filter
          (Event.isPushTo "origin")).length = 1
      ∧ (setup_git config product branch_name false false false repo).events.getLast? =
          some (.gitCheckout product branch_name)
      ∧ (setup_git config product branch_name false false false repo).repo.head = branch_name
      ∧ (setup_git config product branch_name false false false repo).repo.branches =
          repo.branches ++ [branch_name])
    ∧ (∀ d, pc.defaultBranch = some d → repo.dirty = true →
      (setup_git config product branch_name false false false repo).err =
        some (.dirtyRepo dirtyDefaultMsg)
      ∧ (setup_git config product branch_name false false false repo).events = []
      ∧ (setup_git config product branch_name false false false repo).repo = repo) := by
  constructor
  · intro hok
    cases hdef : pc.defaultBranch with
    | none =>
      simp [setup_git, setup_git_core, hcfg, hdef, hpath, hprod, hbr, hbare, hmem,
        Event.isCreateHead, Event.isPushTo]
    | some d =>
      rcases hok with hok | hok
      · rw [hdef] at hok; exact absurd hok (by simp)
      · simp [setup_git, setup_git_core, hcfg, hdef, hpath, hprod, hbr, hbare, hmem, hok,
          Event.isCreateHead, Event.isPushTo]
  · intro d hdef hd
    simp [setup_git, setup_git_core, hcfg, hdef, hpath, hprod, hbr, hbare, hmem, hd]

/-- C7 witness: both parts of `c7_amended_create_branch`: the clean-tree
create path for claire (default branch configured) and the dirty-tree
abort. -/
theorem c7_amended_witness :
    ((setup_git cfgDemo "claire" "feature" false false false repoClean).err = none
      ∧ ((setup_git cfgDemo "claire" "feature" false false false repoClean).events.filter
          Event.isCreateHead).length = 1
      ∧ ((setup_git cfgDemo "claire" "feature" false false false repoClean).events.filter
          (Event.isPushTo "origin")).length = 1
      ∧ (setup_git cfgDemo "claire" "feature" false false false repoClean).events.getLast? =
          some (.gitCheckout "claire" "feature")
      ∧ (setup_git cfgDemo "claire" "feature" false false false repoClean).repo.head = "feature"
      ∧ (setup_git cfgDemo "claire" "feature" false false false repoClean).repo.branches =
          repoClean.branches ++ ["feature"])
    ∧ ((setup_git cfgDemo "claire" "feature" false false false repoDirty).err =
        some (.dirtyRepo dirtyDefaultMsg)
      ∧ (setup_git cfgDemo "claire" "feature" false false false repoDirty).events = []
      ∧ (setup_git cfgDemo "claire" "feature" false false false repoDirty).repo = repoDirty) :=
  ⟨(c7_amended_create_branch cfgDemo "claire" "feature"
      { app_id := "capp", path := "/repos/claire", pathExists := true,
        defaultBranch := some "main" }
      repoClean rfl rfl (by decide) (by decide) rfl (by decide)).1 (Or.inr rfl),
   (c7_amended_create_branch cfgDemo "claire" "feature"
      { app_id := "capp", path := "/repos/claire", pathExists := true,
        defaultBranch := some "main" }
      repoDirty rfl rfl (by decide) (by decide) rfl (by decide)).2 "main" rfl rfl⟩

/-- C3: for every environment-creation call (claire or wellsky-apps
variant) in which the Amplify `create_branch` call fails, no release job
is ever started for that environment (no `start_job` call is issued) and
the failure is reported without an exception escaping the operation. -/
theorem c3_create_branch_failure_no_job (aws : Aws) (config : Config) (cc wc : ProdConfig)
    (branch env ep sw : String)
    (hb : branch ≠ "") (he : env ≠ "") (hep : ep ≠ "") (hsw : sw ≠ "")
    (hcc : config "claire" = some cc) (hwc : config "wellsky-apps" = some wc)
    (hf1 : aws.createBranchFails cc.app_id branch = true)
    (hf2 : aws.createBranchFails wc.app_id branch = true) :
    ((setup_claire_amplify aws config branch env ep sw).2 = none
      ∧ ∀ e ∈ (setup_claire_amplify aws config branch env ep sw).1, e.isStartJob = false)
    ∧ ((setup_wellsky_apps_amplify aws config branch env).2 = none
      ∧ ∀ e ∈ (setup_wellsky_apps_amplify aws config branch env).1, e.isStartJob = false) := by
  refine ⟨⟨?_, ?_⟩, ⟨?_, ?_⟩⟩
  · simp [setup_claire_amplify, hb, he, hep, hsw, hcc, hf1]
  · cases hbk : aws.createBucketFails ("serverless-deployment-state-" ++ (strLower (strLower env))) <;>
      simp [setup_claire_amplify, setup_deployment_bucket, hb, he, hep, hsw, hcc, hf1, hbk,
        Event.isStartJob]
  · simp [setup_wellsky_apps_amplify, hb, he, hwc, hf2]
  · simp [setup_wellsky_apps_amplify, hb, he, hwc, hf2, Event.isStartJob]

/-- C3 witness: `c3_create_branch_failure_no_job` with an oracle on which
every `create_branch` raises, at branch "feature" and environment
"demo". -/
theorem c3_create_branch_failure_no_job_witness :
    ((setup_claire_amplify awsCreateBranchAlwaysFails cfgDemo "feature" "demo"
        "http://graphql.claire-qa.clearcare.ninja" "qa").2 = none
      ∧ ∀ e ∈ (setup_claire_amplify awsCreateBranchAlwaysFails cfgDemo "feature" "demo"
        "http://graphql.claire-qa.clearcare.ninja" "qa").1, e.isStartJob = false)
    ∧ ((setup_wellsky_apps_amplify awsCreateBranchAlwaysFails cfgDemo "feature" "demo").2 = none
      ∧ ∀ e ∈ (setup_wellsky_apps_amplify awsCreateBranchAlwaysFails cfgDemo
        "feature" "demo").1, e.isStartJob = false) :=
  c3_create_branch_failure_no_job awsCreateBranchAlwaysFails cfgDemo
    { app_id := "capp", path := "/repos/claire", pathExists := true,
      defaultBranch := some "main" }
    { app_id := "wapp", path := "/repos/wellsky-apps", pathExists := true,
      defaultBranch := none }
    "feature" "demo" "http://graphql.claire-qa.clearcare.ninja" "qa"
    (by decide) (by decide) (by decide) (by decide) rfl rfl rfl rfl

/-- C9 counterexample: `setup_git` with an empty product fails before any
remote call, but with the configparser `KeyError` from `config['']` at
line 147, not with the precondition assertion (line 149 is never
reached): "fails with a precondition error" is false at this input. -/
theorem c9_counterexample :
    (setup_git cfgDemo "" "feature" false false false repoClean).err = some (.keyError "")
    ∧ isAssertion (setup_git cfgDemo "" "feature" false false false repoClean).err = false
    ∧ (setup_git cfgDemo "" "feature" false false false repoClean).events = [] := by
  decide

/-- C9 amended: every operation given an empty required identifier fails
before any remote (deployment, storage or version-control) call is
issued; the failure is the precondition assertion in every case except
`setup_git` with an empty product, where the configuration-section
lookup raises `KeyError` before the precondition check. -/
theorem c9_amended_preconditions (aws : Aws) (config : Config) :
    (∀ b e ep sw, (b = "" ∨ e = "" ∨ ep = "" ∨ sw = "") →
      (setup_claire_amplify aws config b e ep sw).1 = []
      ∧ isAssertion (setup_claire_amplify aws config b e ep sw).2 = true)
    ∧ (∀ b e, (b = "" ∨ e = "") →
      (setup_wellsky_apps_amplify aws config b e).1 = []
      ∧ isAssertion (setup_wellsky_apps_amplify aws config b e).2 = true)
    ∧ (∀ p e, (p = "" ∨ e = "") →
      (remove_amplify aws config p e).1 = []
      ∧ isAssertion (remove_amplify aws config p e).2 = true)
    ∧ (∀ product pc nc ign rst repo, config product = some pc → pc.pathExists = true →
        product ≠ "" →
      (setup_git config product "" nc ign rst repo).events = []
      ∧ (setup_git config product "" nc ign rst repo).repo = repo
      ∧ isAssertion (setup_git config product "" nc ign rst repo).err = true)
    ∧ (∀ b nc ign rst repo, config "" = none →
      (setup_git config "" b nc ign rst repo).events = []
      ∧ (setup_git config "" b nc ign rst repo).repo = repo
      ∧ (setup_git config "" b nc ign rst repo).err = some (.keyError "")) := by
  refine ⟨?_, ?_, ?_, ?_, ?_⟩
  · intro b e ep sw h
    by_cases hb : b = ""
    · simp [setup_claire_amplify, hb, isAssertion]
    · by_cases he : e = ""
      · simp [setup_claire_amplify, hb, he, isAssertion]
      · by_cases hep : ep = ""
        · simp [setup_claire_amplify, hb, he, hep, isAssertion]
        · have hsw : sw = "" := by tauto
          simp [setup_claire_amplify, hb, he, hep, hsw, isAssertion]
  · intro b e h
    by_cases hb : b = ""
    · simp [setup_wellsky_apps_amplify, hb, isAssertion]
    · have he : e = "" := by tauto
      simp [setup_wellsky_apps_amplify, hb, he, isAssertion]
  · intro p e h
    by_cases hp : p = ""
    · simp [remove_amplify, hp, isAssertion]
    · have he : e = "" := by tauto
      simp [remove_amplify, hp, he, isAssertion]
  · intro product pc nc ign rst repo hcfg hpath hprod
    simp [setup_git, hcfg, hpath, hprod, isAssertion]
  · intro b nc ign rst repo hcfg
    simp [setup_git, hcfg]

/-- C9 witness: `c9_amended_preconditions` applied at concrete inputs for
each of the five operations. -/
theorem c9_amended_preconditions_witness :
    ((setup_claire_amplify awsOk cfgDemo "" "demo" "ep" "qa").1 = []
      ∧ isAssertion (setup_claire_amplify awsOk cfgDemo "" "demo" "ep" "qa").2 = true)
    ∧ ((setup_wellsky_apps_amplify awsOk cfgDemo "feature" "").1 = []
      ∧ isAssertion (setup_wellsky_apps_amplify awsOk cfgDemo "feature" "").2 = true)
    ∧ ((remove_amplify awsOk cfgDemo "" "demo").1 = []
      ∧ isAssertion (remove_amplify awsOk cfgDemo "" "demo").2 = true)
    ∧ ((setup_git cfgDemo "claire" "" false false false repoClean).events = []
      ∧ (setup_git cfgDemo "claire" "" false false false repoClean).repo = repoClean
      ∧ isAssertion (setup_git cfgDemo "claire" "" false false false repoClean).err = true)
    ∧ ((setup_git cfgDemo "" "feature" true false false repoClean).events = []
      ∧ (setup_git cfgDemo "" "feature" true false false repoClean).repo = repoClean
      ∧ (setup_git cfgDemo "" "feature" true false false repoClean).err =
          some (.keyError "")) :=
  ⟨(c9_amended_preconditions awsOk cfgDemo).1 "" "demo" "ep" "qa" (Or.inl rfl),
   (c9_amended_preconditions awsOk cfgDemo).2.1 "feature" "" (Or.inr rfl),
   (c9_amended_preconditions awsOk cfgDemo).2.2.1 "" "demo" (Or.inl rfl),
   (c9_amended_preconditions awsOk cfgDemo).2.2.2.1 "claire"
     { app_id := "capp", path := "/repos/claire", pathExists := true,
       defaultBranch := some "main" }
     false false false repoClean rfl rfl (by decide),
   (c9_amended_preconditions awsOk cfgDemo).2.2.2.2 "feature" true false false repoClean rfl⟩

/-- C4 counterexample: a batched create run selecting both products
(`argsBatch`) on which claire's `start_job` raises: the `ClientError`
is not caught anywhere (src/devenv.py line 47 is outside the
try/except), so it escapes the whole run and the wellsky-apps workflow
is never attempted — the recorded calls are exactly claire's, with no
`create_branch` for the wellsky-apps application.  This falsifies the
claim that every remote failure, including one of start-release-job, is
caught at the product boundary with remaining products still
attempted. -/
theorem c4_counterexample :
    (main_run cfgDemo awsClaireStartJobFails argsBatch repoClean repoClean).err =
      some (.clientError "start_job")
    ∧ (main_run cfgDemo awsClaireStartJobFails argsBatch repoClean repoClean).events =
      [.s3CreateBucket "serverless-deployment-state-demo" "us-west-2" "private",
       .s3PutBucketEncryption "serverless-deployment-state-demo" "AES256",
       .s3PutPublicAccessBlock "serverless-deployment-state-demo" true true true true,
       .amplifyCreateBranch "capp" "feature" "DEVELOPMENT" false true false
         "claire-demo" "demo"
         (some [("BRETHA_GRAPHQL_ENDPOINT", "http://graphql.claire-qa.clearcare.ninja"),
                ("SHARED_DATA_WITH", "qa")]),
       .amplifyStartJob "capp" "feature" "RELEASE" "Initial environment setup"] := by
  decide

/-- C4 amended: in a batched run over both products, a `create_branch`
failure in one product's create workflow, or a `delete_branch` failure
in its remove workflow, is caught at that product's boundary and the
remaining product's workflow is still attempted; but a failure of the
`start_job` (start-release-job) call is not caught: it escapes the
product workflow and the remaining product is not attempted. -/
theorem c4_amended_error_boundaries (aws : Aws) (config : Config) (a : Args)
    (cc wc : ProdConfig)
    (hcc : config "claire" = some cc) (hwc : config "wellsky-apps" = some wc)
    (hcl : a.claire = true) (hws : a.wellsky_apps = true) (hlo : a.local_only = false)
    (hb : a.branch ≠ "") (he : a.env ≠ "") (hep : a.bretha_graphql_endpoint ≠ "")
    (hsw : a.share_data_with ≠ "") (hcp : a.copy_data_from = "") :
    (a.remove = false → aws.createBranchFails cc.app_id a.branch = true →
      aws.createBranchFails wc.app_id a.branch = false →
      aws.startJobFails wc.app_id a.branch = false →
      (amplify_phase aws config a).2 = none
      ∧ Event.amplifyCreateBranch wc.app_id a.branch "DEVELOPMENT" false true false
          ("wellsky-apps-" ++ a.env) (strLower a.env) none ∈ (amplify_phase aws config a).1)
    ∧ (a.remove = true →
      (amplify_phase aws config a).2 = none
      ∧ (amplify_phase aws config a).1 =
        [.amplifyDeleteBranch cc.app_id a.env, .amplifyDeleteBranch wc.app_id a.env])
    ∧ (a.remove = false → aws.createBranchFails cc.app_id a.branch = false →
      aws.startJobFails cc.app_id a.branch = true →
      (amplify_phase aws config a).2 = some (.clientError "start_job")
      ∧ (amplify_phase aws config a).1 =
        (setup_deployment_bucket aws (strLower a.env)).2
        ++ [.amplifyCreateBranch cc.app_id a.branch "DEVELOPMENT" false true false
              ("claire-" ++ a.env) (strLower a.env)
              (some [("BRETHA_GRAPHQL_ENDPOINT", a.bretha_graphql_endpoint),
                     ("SHARED_DATA_WITH", a.share_data_with)]),
            .amplifyStartJob cc.app_id a.branch "RELEASE" "Initial environment setup"]) := by
  refine ⟨?_, ?_, ?_⟩
  · intro hrm hf1 hf2 hf3
    simp [amplify_phase, setup_claire_amplify, setup_wellsky_apps_amplify,
      hlo, hrm, hcl, hws, hb, he, hep, hsw, hcp, hcc, hwc, hf1, hf2, hf3]
  · intro hrm
    simp [amplify_phase, remove_amplify, hlo, hrm, hcl, hws, he, hcc, hwc]
  · intro hrm hf1 hf2
    simp [amplify_phase, setup_claire_amplify, hlo, hrm, hcl, hb, he, hep, hsw, hcc, hf1, hf2]

/-- C4 witness: the three parts of `c4_amended_error_boundaries` at
concrete batched invocations. -/
theorem c4_amended_error_boundaries_witness :
    ((amplify_phase awsClaireCreateBranchFails cfgDemo argsBatch).2 = none
      ∧ Event.amplifyCreateBranch "wapp" "feature" "DEVELOPMENT" false true false
          ("wellsky-apps-" ++ "demo") (strLower "demo") none ∈
            (amplify_phase awsClaireCreateBranchFails cfgDemo argsBatch).1)
    ∧ ((amplify_phase awsOk cfgDemo { argsBatch with remove := true }).2 = none
      ∧ (amplify_phase awsOk cfgDemo { argsBatch with remove := true }).1 =
        [.amplifyDeleteBranch "capp" "demo", .amplifyDeleteBranch "wapp" "demo"])
    ∧ ((amplify_phase awsClaireStartJobFails cfgDemo argsBatch).2 =
        some (.clientError "start_job")
      ∧ (amplify_phase awsClaireStartJobFails cfgDemo argsBatch).1 =
        (setup_deployment_bucket awsClaireStartJobFails (strLower "demo")).2
        ++ [.amplifyCreateBranch "capp" "feature" "DEVELOPMENT" false true false
              ("claire-" ++ "demo") (strLower "demo")
              (some [("BRETHA_GRAPHQL_ENDPOINT", "http://graphql.claire-qa.clearcare.ninja"),
                     ("SHARED_DATA_WITH", "qa")]),
            .amplifyStartJob "capp" "feature" "RELEASE" "Initial environment setup"]) :=
  ⟨(c4_amended_error_boundaries awsClaireCreateBranchFails cfgDemo argsBatch
      { app_id := "capp", path := "/repos/claire", pathExists := true,
        defaultBranch := some "main" }
      { app_id := "wapp", path := "/repos/wellsky-apps", pathExists := true,
        defaultBranch := none }
      rfl rfl rfl rfl rfl (by decide) (by decide) (by decide) (by decide) rfl).1
      rfl rfl rfl rfl,
   (c4_amended_error_boundaries awsOk cfgDemo { argsBatch with remove := true }
      { app_id := "capp", path := "/repos/claire", pathExists := true,
        defaultBranch := some "main" }
      { app_id := "wapp", path := "/repos/wellsky-apps", pathExists := true,
        defaultBranch := none }
      rfl rfl rfl rfl rfl (by decide) (by decide) (by decide) (by decide) rfl).2.1 rfl,
   (c4_amended_error_boundaries awsClaireStartJobFails cfgDemo argsBatch
      { app_id := "capp", path := "/repos/claire", pathExists := true,
        defaultBranch := some "main" }
      { app_id := "wapp", path := "/repos/wellsky-apps", pathExists := true,
        defaultBranch := none }
      rfl rfl rfl rfl rfl (by decide) (by decide) (by decide) (by decide) rfl).2.2
      rfl rfl rfl⟩

/-- A singleton checkout trace contains only local git operations. -/
theorem checkout_events_local (product d : String) :
    ∀ e ∈ [Event.gitCheckout product d], e.isRemote = false := by
  intro e he
  simp only [List.mem_singleton] at he
  subst he
  rfl

/-- The empty trace contains only local git operations. -/
theorem nil_events_local : ∀ e ∈ ([] : List Event), e.isRemote = false := by
  intro e he
  cases he

/-- Every call `setup_git_core` issues is a local git operation, provided
the prefix trace it was handed is. -/
theorem setup_git_core_events_local (product branch_name : String)
    (nc ign : Bool) (repo1 : RepoState) (evs1 : List Event)
    (h1 : ∀ e ∈ evs1, e.isRemote = false) :
    ∀ e ∈ (setup_git_core product branch_name nc ign repo1 evs1).events,
      e.isRemote = false := by
  intro e he
  unfold setup_git_core at he
  repeat' split at he
  all_goals
    first
    | exact h1 e he
    | (rcases List.mem_append.mp he with h | h
       · exact h1 e h
       · simp only [List.mem_cons, List.mem_singleton, List.not_mem_nil, or_false] at h
         first
         | (subst h; rfl)
         | (rcases h with h | h | h <;> (subst h; rfl)))

/-- Every call `setup_git` issues is a local git operation: the only
remote mutation it can perform, the push of a new branch, goes through
the version-control gateway, not the deployment or storage APIs. -/
theorem setup_git_events_local (config : Config) (product branch_name : String)
    (nc ign rst : Bool) (repo : RepoState) :
    ∀ e ∈ (setup_git config product branch_name nc ign rst repo).events,
      e.isRemote = false := by
  intro e he
  unfold setup_git at he
  repeat' split at he
  all_goals
    first
    | exact absurd he (List.not_mem_nil e)
    | exact checkout_events_local _ _ e he
    | exact setup_git_core_events_local _ _ _ _ _ _ (checkout_events_local _ _) e he
    | exact setup_git_core_events_local _ _ _ _ _ _ nil_events_local e he

/-- Every call the git phase of `__main__` issues is a local git
operation. -/
theorem run_products_git_events_local (config : Config) (branch : String)
    (nc ign dc dw : Bool) (cr wr : RepoState) :
    ∀ e ∈ (run_products_git config branch nc ign dc dw cr wr).events,
      e.isRemote = false := by
  intro e he
  simp only [run_products_git] at he
  repeat' split at he
  all_goals
    first
    | exact absurd he (List.not_mem_nil e)
    | exact setup_git_events_local _ _ _ _ _ _ _ e he
    | (rcases List.mem_append.mp he with h | h <;>
        first
        | exact absurd h (List.not_mem_nil e)
        | exact setup_git_events_local _ _ _ _ _ _ _ e h)

/-- A branch name of the form `issue/<ticket>` is never empty. -/
theorem issue_branch_ne_empty (t : String) : "issue/" ++ t ≠ "" := by
  intro h
  have h2 := congrArg String.length h
  rw [String.length_append] at h2
  have h6 : ("issue/" : String).length = 6 := rfl
  have h0 : ("" : String).length = 0 := rfl
  omega

/-- C8: the jira ticket shortcut.  Without `--new` (attach mode) the run
equals the git phase alone on the local branch `issue/<ticket>` with
`no_create=true` and `ignore_non_existing=true`, exiting 0 on success,
and no remote (deployment or storage) call is ever issued.  With
`--new`, the environment name is the ticket, the share-data-with target
is "qa", the local branch phase runs with creation allowed
(`no_create=false`), and the full create workflow follows: deployment
bucket, Amplify branch (with `SHARED_DATA_WITH=qa`), and release job. -/
theorem c8_jira_shortcut (config : Config) (aws : Aws) (a : Args) (cr wr : RepoState)
    (t : String) (hj : a.jira = true) (ht : a.ticket = t) (htne : t ≠ "") :
    (a.new = false →
      main_run config aws a cr wr =
        { claireRepo := (run_products_git config ("issue/" ++ t) true true
            a.claire a.wellsky_apps cr wr).claireRepo
          wellskyRepo := (run_products_git config ("issue/" ++ t) true true
            a.claire a.wellsky_apps cr wr).wellskyRepo
          events := (run_products_git config ("issue/" ++ t) true true
            a.claire a.wellsky_apps cr wr).events
          err := (run_products_git config ("issue/" ++ t) true true
            a.claire a.wellsky_apps cr wr).err
          exitCode := if (run_products_git config ("issue/" ++ t) true true
            a.claire a.wellsky_apps cr wr).err.isSome then none else some 0 }
      ∧ ∀ e ∈ (main_run config aws a cr wr).events, e.isRemote = false)
    ∧ (a.new = true → a.claire = true → a.wellsky_apps = false → a.remote_only = false →
      a.remove = false → a.copy_data_from = "" → a.bretha_graphql_endpoint ≠ "" →
      ∀ cc : ProdConfig, config "claire" = some cc →
      aws.createBranchFails cc.app_id ("issue/" ++ t) = false →
      aws.startJobFails cc.app_id ("issue/" ++ t) = false →
      (run_products_git config ("issue/" ++ t) false false true false cr wr).err = none →
      main_run config aws a cr wr =
        { claireRepo := (run_products_git config ("issue/" ++ t) false false
            true false cr wr).claireRepo
          wellskyRepo := (run_products_git config ("issue/" ++ t) false false
            true false cr wr).wellskyRepo
          events := (run_products_git config ("issue/" ++ t) false false
            true false cr wr).events
            ++ (setup_deployment_bucket aws (strLower t)).2
            ++ [.amplifyCreateBranch cc.app_id ("issue/" ++ t) "DEVELOPMENT"
                  false true false ("claire-" ++ t) (strLower t)
                  (some [("BRETHA_GRAPHQL_ENDPOINT", a.bretha_graphql_endpoint),
                         ("SHARED_DATA_WITH", "qa")]),
                .amplifyStartJob cc.app_id ("issue/" ++ t) "RELEASE"
                  "Initial environment setup"]
          err := none
          exitCode := none }) := by
  constructor
  · intro hnew
    constructor
    · simp [main_run, hj, ht, htne, hnew]
    · intro e he
      refine run_products_git_events_local config ("issue/" ++ t) true true
        a.claire a.wellsky_apps cr wr e ?_
      simpa [main_run, hj, ht, htne, hnew] using he
  · intro hnew hcl hws hro hrm hcp hep cc hcc hf1 hf2 hgerr
    simp [main_run, main_general, amplify_phase, setup_claire_amplify,
      hj, ht, htne, hnew, hcl, hws, hro, hrm, hcp, hep, hcc, hf1, hf2, hgerr,
      ne_eq, issue_branch_ne_empty]

/-- C8 witness: both modes of `c8_jira_shortcut` for ticket "CW-2134" with
the claire product selected: attach mode (`argsJira`) and `--new` mode
(`argsJira` with `new := true`). -/
theorem c8_jira_shortcut_witness :
    (main_run cfgDemo awsOk argsJira repoClean repoClean =
      { claireRepo := (run_products_git cfgDemo ("issue/" ++ "CW-2134") true true
          argsJira.claire argsJira.wellsky_apps repoClean repoClean).claireRepo
        wellskyRepo := (run_products_git cfgDemo ("issue/" ++ "CW-2134") true true
          argsJira.claire argsJira.wellsky_apps repoClean repoClean).wellskyRepo
        events := (run_products_git cfgDemo ("issue/" ++ "CW-2134") true true
          argsJira.claire argsJira.wellsky_apps repoClean repoClean).events
        err := (run_products_git cfgDemo ("issue/" ++ "CW-2134") true true
          argsJira.claire argsJira.wellsky_apps repoClean repoClean).err
        exitCode := if (run_products_git cfgDemo ("issue/" ++ "CW-2134") true true
          argsJira.claire argsJira.wellsky_apps repoClean repoClean).err.isSome
          then none else some 0 }
      ∧ ∀ e ∈ (main_run cfgDemo awsOk argsJira repoClean repoClean).events,
          e.isRemote = false)
    ∧ main_run cfgDemo awsOk { argsJira with new := true } repoClean repoClean =
      { claireRepo := (run_products_git cfgDemo ("issue/" ++ "CW-2134") false false
          true false repoClean repoClean).claireRepo
        wellskyRepo := (run_products_git cfgDemo ("issue/" ++ "CW-2134") false false
          true false repoClean repoClean).wellskyRepo
        events := (run_products_git cfgDemo ("issue/" ++ "CW-2134") false false
          true false repoClean repoClean).events
          ++ (setup_deployment_bucket awsOk (strLower "CW-2134")).2
          ++ [.amplifyCreateBranch "capp" ("issue/" ++ "CW-2134") "DEVELOPMENT"
                false true false ("claire-" ++ "CW-2134") (strLower "CW-2134")
                (some [("BRETHA_GRAPHQL_ENDPOINT",
                        "http://graphql.claire-qa.clearcare.ninja"),
                       ("SHARED_DATA_WITH", "qa")]),
              .amplifyStartJob "capp" ("issue/" ++ "CW-2134") "RELEASE"
                "Initial environment setup"]
        err := none
        exitCode := none } :=
  ⟨(c8_jira_shortcut cfgDemo awsOk argsJira repoClean repoClean "CW-2134"
      rfl rfl (by decide)).1 rfl,
   (c8_jira_shortcut cfgDemo awsOk { argsJira with new := true } repoClean repoClean
      "CW-2134" rfl rfl (by decide)).2 rfl rfl rfl rfl rfl rfl (by decide)
      { app_id := "capp", path := "/repos/claire", pathExists := true,
        defaultBranch := some "main" }
      rfl rfl rfl (by decide)⟩

end Devenv
